import Mathlib

/-!
Verification of the ImpactFlow backend (src/main.py, src/schemas.py).

The backend is a FastAPI service over MongoDB.  We embed the authentication
and identity flow (password hashing, login, token issuance, current-user
resolution) and the generic list/serialize pattern of the resource handlers.

Modelling conventions:
* A stored document / Python dict is an association list `Doc` from field
  names to `Value`s; the handlers of main.py never build documents with
  duplicate keys, and `Doc.get`, `Doc.set`, `Doc.erase` mirror dict
  lookup / assignment / deletion on such lists.
* MongoDB ObjectIds are identified with the counter value that generated
  them; their canonical string form is the decimal numeral, and parsing an
  ObjectId from a string is partial, exactly as `bson.ObjectId(s)` (which
  raises `InvalidId` on a string that is not a well-formed id).
* bcrypt (via passlib) and JOSE JWTs are external libraries; they are
  modelled symbolically from the spec (one-way salted hash, tamper-evident
  signature keyed by the server secret).
* Time is an integer Unix timestamp in seconds; the current time `now` and
  the per-call bcrypt salt are passed as explicit arguments, making the
  ambient nondeterminism (clock, RNG) explicit.
-/

/-- A Python/BSON value as it appears in payloads, stored documents and token
claims.  `vOid n` is a MongoDB ObjectId; `vDigest p s` is the bcrypt digest
obtained by hashing plaintext `p` with salt `s` — bcrypt is an external
one-way function, so its digests are modelled as opaque values disjoint from
ordinary strings (a real bcrypt digest is a `$2b$...` string that never
coincides with the plaintext that produced it). -/
inductive Value where
  | vStr : String → Value
  | vInt : Int → Value
  | vBool : Bool → Value
  | vOid : Nat → Value
  | vNull : Value
  | vDigest : String → Nat → Value
deriving DecidableEq, Repr

/-- A document / Python dict: an association list from field names to values.
Documents built by main.py have pairwise-distinct keys. -/
abbrev Doc := List (String × Value)

/-- Dict lookup: `d[k]` as an `Option` (first binding wins, as in a dict with
unique keys).  Mirrors Python `d.get(k)` up to the `None`/absent distinction,
which `pyGetD` below collapses the way `dict.get` does. -/
def Doc.get : Doc → String → Option Value
  | [], _ => none
  | (k₁, v₁) :: rest, k => if k₁ = k then some v₁ else Doc.get rest k

/-- Dict assignment `d[k] = v`: replace the binding if the key is present,
otherwise append the new binding (dicts preserve insertion order). -/
def Doc.set : Doc → String → Value → Doc
  | [], k, v => [(k, v)]
  | (k₁, v₁) :: rest, k, v =>
    if k₁ = k then (k, v) :: rest else (k₁, v₁) :: Doc.set rest k v

/-- Dict deletion `del d[k]` / `d.pop(k, None)`: drop the binding for `k`. -/
def Doc.erase : Doc → String → Doc
  | [], _ => []
  | (k₁, v₁) :: rest, k =>
    if k₁ = k then Doc.erase rest k else (k₁, v₁) :: Doc.erase rest k

/-- Python `d.get(k, default)`: the stored value when the key is present
(even if that value is `None`), otherwise the default. -/
def pyGetD (d : Doc) (k : String) (default : Value) : Value :=
  (Doc.get d k).getD default

/-- Python truthiness of a value, as used by `if not user.get("is_active", True)`
and `if event_id`. -/
def Value.truthy : Value → Bool
  | Value.vStr s => !s.isEmpty
  | Value.vInt n => n != 0
  | Value.vBool b => b
  | Value.vOid _ => true
  | Value.vNull => false
  | Value.vDigest _ _ => true

/-- The canonical string form of an ObjectId (`str(object_id)` in Python);
decimal numerals stand in for the 24-hex-character form. -/
def objectIdToString (n : Nat) : String :=
  toString n

/-- The decimal digit denoted by a character, if any. -/
def digitOfChar (c : Char) : Option Nat :=
  if c = '0' then some 0 else if c = '1' then some 1
  else if c = '2' then some 2 else if c = '3' then some 3
  else if c = '4' then some 4 else if c = '5' then some 5
  else if c = '6' then some 6 else if c = '7' then some 7
  else if c = '8' then some 8 else if c = '9' then some 9
  else none

/-- Reads a run of decimal digits into a number; any non-digit fails. -/
def digitsToNat : List Char → Nat → Option Nat
  | [], acc => some acc
  | c :: cs, acc =>
    match digitOfChar c with
    | some d => digitsToNat cs (acc * 10 + d)
    | none => none

/-- Parsing a string back into an ObjectId (`bson.ObjectId(s)`): succeeds
exactly on canonical id strings — here non-empty decimal numerals, as the
real constructor succeeds exactly on 24-hex-character strings — and fails
(raises `InvalidId`) on anything else. -/
def objectIdOfString (s : String) : Option Nat :=
  if s.data = [] then none else digitsToNat s.data 0

-- ===== Dict lemmas =====

theorem Doc.get_set_self (d : Doc) (k : String) (v : Value) :
    Doc.get (Doc.set d k v) k = some v := by
  induction d with
  | nil => simp [Doc.set, Doc.get]
  | cons kv rest ih =>
    by_cases h : kv.1 = k
    · simp [Doc.set, h, Doc.get]
    · simp [Doc.set, h, Doc.get, ih]

theorem Doc.get_erase_self (d : Doc) (k : String) :
    Doc.get (Doc.erase d k) k = none := by
  induction d with
  | nil => simp [Doc.erase, Doc.get]
  | cons kv rest ih =>
    obtain ⟨k₁, v₁⟩ := kv
    by_cases h : k₁ = k
    · simpa [Doc.erase, h] using ih
    · simpa [Doc.erase, Doc.get, h] using ih

theorem Doc.get_erase_ne (d : Doc) (k k' : String) (hne : k ≠ k') :
    Doc.get (Doc.erase d k') k = Doc.get d k := by
  induction d with
  | nil => simp [Doc.erase]
  | cons kv rest ih =>
    obtain ⟨k₁, v₁⟩ := kv
    by_cases h : k₁ = k'
    · have hk : k₁ ≠ k := fun hk => hne (hk ▸ h)
      simp [Doc.erase, h, Doc.get, hk, ih, Ne.symm hne]
    · by_cases hk : k₁ = k
      · simp [Doc.erase, h, Doc.get, hk, hne]
      · simp [Doc.erase, h, Doc.get, hk, ih]

-- ===== Password hashing (passlib bcrypt; external) =====

/-- Modelled from the spec: `hash(plaintext) -> digest` is one-way and salted;
each call draws a fresh random salt, made explicit as the `salt` argument, so
two calls with different salts yield different digests while both verify.
Embeds `get_password_hash` of src/main.py, which delegates to
`pwd_context.hash` (bcrypt). -/
def get_password_hash (password : String) (salt : Nat) : Value :=
  Value.vDigest password salt

/-- Modelled from the spec: `verify(plaintext, digest)` is true iff the digest
was produced by `hash(plaintext)` under some salt.  A value that is not a
bcrypt digest (for instance the `""` default that `login` substitutes when the
stored document has no password field) never verifies.  Embeds
`verify_password` of src/main.py (`pwd_context.verify`). -/
def verify_password (plain_password : String) (hashed_password : Value) : Bool :=
  match hashed_password with
  | Value.vDigest p _ => plain_password == p
  | _ => false

-- ===== Tokens (python-jose; external) =====

/-- Modelled from the spec: a bearer token is either a string that does not
parse/verify as a JWT at all, or a signed claim set.  Signing is symbolic: a
signature is carried as the key that produced it, so it verifies exactly under
that key (tamper-evident, keyed by the server secret). -/
inductive Token where
  | malformed : String → Token
  | signed : Doc → String → Token
deriving DecidableEq, Repr

/-- `ACCESS_TOKEN_EXPIRE_MINUTES = 60 * 24` of src/main.py. -/
def ACCESS_TOKEN_EXPIRE_MINUTES : Int := 60 * 24

/-- `create_access_token` of src/main.py: copy the claims, add the expiry
(`now` plus the supplied delta, default `ACCESS_TOKEN_EXPIRE_MINUTES` minutes,
in seconds), and sign with the server secret.  The secret
(`SECRET_KEY = os.getenv("JWT_SECRET", ...)`) is process configuration and is
passed as an argument. -/
def create_access_token (data : Doc) (secret : String) (now : Int)
    (expires_delta : Option Int) : Token :=
  Token.signed
    (Doc.set data "exp"
      (Value.vInt (now + expires_delta.getD (ACCESS_TOKEN_EXPIRE_MINUTES * 60))))
    secret

/-- Modelled from the spec: `jwt.decode(token, secret, [alg])` verifies the
signature and the expiry, returning the claims, and raises `JWTError` (here
`none`) when the token is malformed, the signature does not verify under
`secret`, or the `exp` claim has passed (a non-numeric `exp` is also a
`JWTError`; a token without `exp` is accepted by jose). -/
def jwtDecode (token : Token) (secret : String) (now : Int) : Option Doc :=
  match token with
  | Token.malformed _ => none
  | Token.signed claims key =>
    if key = secret then
      match Doc.get claims "exp" with
      | some (Value.vInt e) => if e ≤ now then none else some claims
      | some _ => none
      | none => some claims
    else none

-- ===== Store =====

/-- The `user` collection together with the store's id counter: `insert_one`
assigns `ObjectId` `nextId` to the next inserted document.  Documents inserted
by this system always carry a `"_id"` bound to a `vOid`. -/
structure UserStore where
  docs : List Doc
  nextId : Nat
deriving DecidableEq, Repr

/-- pymongo `collection.find_one({k: v})`: the first stored document whose
field `k` equals `v` (exact match), or `None`. -/
def find_one (docs : List Doc) (k : String) (v : Value) : Option Doc :=
  docs.find? (fun d => Doc.get d k == some v)

theorem find_one_append_of_none (l₁ l₂ : List Doc) (k : String) (v : Value)
    (h : find_one l₁ k v = none) :
    find_one (l₁ ++ l₂) k v = find_one l₂ k v := by
  induction l₁ with
  | nil => simp
  | cons d rest ih =>
    simp only [find_one, List.find?] at h ⊢
    cases hd : (Doc.get d k == some v) with
    | true => simp [hd] at h
    | false =>
      simp only [hd] at h ⊢
      exact ih h

-- ===== Errors =====

/-- A FastAPI `HTTPException(status_code, detail)`. -/
structure HTTPException where
  status_code : Nat
  detail : String
deriving DecidableEq, Repr

/-- How a request handler can fail: with a deliberate `HTTPException`, or with
an exception that escapes the handler and surfaces as a server error —
`bson.errors.InvalidId` from `ObjectId(s)` on a malformed id string, or a
`TypeError` (`ObjectId` applied to a non-string claim value, or subscripting
the `db` handle when it is `None`). -/
inductive PyError where
  | http : HTTPException → PyError
  | invalidId : String → PyError
  | typeError : PyError
deriving DecidableEq, Repr

deriving instance DecidableEq for Except

/-- The `credentials_exception` of `get_current_user` in src/main.py. -/
def credentials_exception : HTTPException :=
  ⟨401, "Could not validate credentials"⟩

/-- `bson.ObjectId(user_id)` applied to the Python value extracted from the
token's `sub` claim: an id string parses to its ObjectId, a non-id string
raises `InvalidId`, an `ObjectId` passes through, anything else raises
`TypeError`. -/
def toObjectId : Value → Except PyError Nat
  | Value.vStr s =>
    match objectIdOfString s with
    | some n => Except.ok n
    | none => Except.error (PyError.invalidId s)
  | Value.vOid n => Except.ok n
  | _ => Except.error PyError.typeError

-- ===== Auth endpoints (src/main.py) =====

/-- The body of `POST /auth/register` (`RegisterPayload` of src/main.py). -/
structure RegisterPayload where
  name : String
  email : String
  phone : Option String
  role : String
  password : String
deriving DecidableEq, Repr

/-- A Python optional value: `None` or the string. -/
def optValue : Option String → Value
  | some s => Value.vStr s
  | none => Value.vNull

/-- Python `str(v)`, as applied in `str(user["_id"])`: an ObjectId renders in
its canonical string form; the other renderings follow Python's `str`. -/
def valueToString : Value → String
  | Value.vOid n => objectIdToString n
  | Value.vStr s => s
  | Value.vInt n => toString n
  | Value.vBool b => if b then "True" else "False"
  | Value.vNull => "None"
  | Value.vDigest p s => "$2b$12$" ++ toString s ++ "$" ++ p

/-- `payload.model_dump()` with the password hashed in place and
`is_active = True` added, exactly as built by `register` in src/main.py. -/
def registerDoc (p : RegisterPayload) (salt : Nat) : Doc :=
  [("name", Value.vStr p.name), ("email", Value.vStr p.email),
   ("phone", optValue p.phone), ("role", Value.vStr p.role),
   ("password", get_password_hash p.password salt),
   ("is_active", Value.vBool true)]

/-- `register` (`POST /auth/register`, src/main.py lines 111-122): reject when
the store is down (500) or the email is already on file (400, before any
insert); otherwise hash the password, add `is_active = True`, insert (the
store assigns ObjectId `nextId`), and answer with the new id in string form.
Returns the response together with the store after the call. -/
def register (db : Option UserStore) (payload : RegisterPayload) (salt : Nat) :
    Except HTTPException String × Option UserStore :=
  match db with
  | none => (Except.error ⟨500, "Database not available"⟩, none)
  | some st =>
    match find_one st.docs "email" (Value.vStr payload.email) with
    | some _ => (Except.error ⟨400, "Email already registered"⟩, some st)
    | none =>
      let doc := ("_id", Value.vOid st.nextId) :: registerDoc payload salt
      (Except.ok (objectIdToString st.nextId),
       some ⟨st.docs ++ [doc], st.nextId + 1⟩)

/-- `login` (`POST /auth/login`, src/main.py lines 124-137): look the user up
by email (the OAuth2 form's `username`); unknown email and failed password
verification raise the identical 400 "Invalid credentials"; a user whose
`is_active` is present and falsy (absent defaults to `True`) raises 403;
otherwise issue a token for `sub = str(user["_id"])` and the stored role
(default "volunteer"). -/
def login (db : Option UserStore) (username password : String)
    (secret : String) (now : Int) : Except HTTPException Token :=
  match db with
  | none => Except.error ⟨500, "Database not available"⟩
  | some st =>
    match find_one st.docs "email" (Value.vStr username) with
    | none => Except.error ⟨400, "Invalid credentials"⟩
    | some user =>
      if verify_password password (pyGetD user "password" (Value.vStr "")) then
        if Value.truthy (pyGetD user "is_active" (Value.vBool true)) then
          Except.ok (create_access_token
            [("sub", Value.vStr (valueToString (pyGetD user "_id" Value.vNull))),
             ("role", pyGetD user "role" (Value.vStr "volunteer"))]
            secret now none)
        else Except.error ⟨403, "User is inactive"⟩
      else Except.error ⟨400, "Invalid credentials"⟩

/-- `serialize_doc` of src/main.py: on a non-empty document whose `_id` is an
`ObjectId`, add `id` bound to the string form and delete `_id`; any other
document (empty, `_id` absent, or `_id` of a non-ObjectId type) is returned
unchanged. -/
def serialize_doc (doc : Doc) : Doc :=
  if doc = [] then doc
  else
    match Doc.get doc "_id" with
    | some (Value.vOid n) =>
      Doc.erase (Doc.set doc "id" (Value.vStr (objectIdToString n))) "_id"
    | _ => doc

/-- `get_current_user` (src/main.py lines 139-151), the spec's `resolve`:
decode + verify the token (any `JWTError` becomes the 401
`credentials_exception`, as does a missing/`None` `sub` claim); then look the
subject up by `_id` — `ObjectId(user_id)` may raise outside the
`except JWTError` handler — and answer 401 when no user is found; a found
user is returned through `serialize_doc`. -/
def get_current_user (db : Option UserStore) (token : Token)
    (secret : String) (now : Int) : Except PyError Doc :=
  match jwtDecode token secret now with
  | none => Except.error (PyError.http credentials_exception)
  | some payload =>
    let user_id := pyGetD payload "sub" Value.vNull
    if user_id = Value.vNull then
      Except.error (PyError.http credentials_exception)
    else
      match db with
      | none => Except.error PyError.typeError
      | some st =>
        match toObjectId user_id with
        | Except.error e => Except.error e
        | Except.ok n =>
          match find_one st.docs "_id" (Value.vOid n) with
          | none => Except.error (PyError.http credentials_exception)
          | some user => Except.ok (serialize_doc user)

/-- `read_users_me` (`GET /auth/me`, src/main.py lines 153-157): resolve the
current user, then `current_user.pop("password", None)` before returning. -/
def read_users_me (db : Option UserStore) (token : Token)
    (secret : String) (now : Int) : Except PyError Doc :=
  match get_current_user db token secret now with
  | Except.error e => Except.error e
  | Except.ok current_user => Except.ok (Doc.erase current_user "password")

-- ===== Resource handlers (src/main.py) =====

/-- Modelled from the spec: `get_documents(collection, filter)` of the missing
database.py — "filter is an optional exact-match mapping ...; returns all
matching records ...; absent filter returns all records".  The collection's
stored documents are passed in store order; the empty filter (`{}`, the
Python default) matches every document. -/
def get_documents (coll : List Doc) (filt : Doc) : List Doc :=
  coll.filter (fun d => filt.all (fun kv => Doc.get d kv.1 == some kv.2))

/-- `list_events` (`GET /events`): all stored events, serialized. -/
def list_events (coll : List Doc) : List Doc :=
  (get_documents coll []).map serialize_doc

/-- `list_users` (`GET /users`): all stored users with the password removed,
then serialized. -/
def list_users (coll : List Doc) : List Doc :=
  coll.map (fun d => serialize_doc (Doc.erase d "password"))

/-- The filter built by the filterable list endpoints:
`{"event_id": event_id} if event_id else {}` — `None` and the empty string
are both falsy, so both leave the filter empty. -/
def eventIdFilter (event_id : Option String) : Doc :=
  match event_id with
  | some e => if e = "" then [] else [("event_id", Value.vStr e)]
  | none => []

/-- `list_event_volunteers` (`GET /event-volunteers`, src/main.py 205-209). -/
def list_event_volunteers (coll : List Doc) (event_id : Option String) : List Doc :=
  (get_documents coll (eventIdFilter event_id)).map serialize_doc

/-- `list_donations` (`GET /donations`, src/main.py 217-221). -/
def list_donations (coll : List Doc) (event_id : Option String) : List Doc :=
  (get_documents coll (eventIdFilter event_id)).map serialize_doc

/-- `list_tasks` (`GET /tasks`, src/main.py 229-233). -/
def list_tasks (coll : List Doc) (event_id : Option String) : List Doc :=
  (get_documents coll (eventIdFilter event_id)).map serialize_doc

/-- `list_attendance` (`GET /attendance`, src/main.py 241-245). -/
def list_attendance (coll : List Doc) (event_id : Option String) : List Doc :=
  (get_documents coll (eventIdFilter event_id)).map serialize_doc

-- ===== Shared lemmas for the claims =====

theorem get_documents_empty_filter (coll : List Doc) :
    get_documents coll [] = coll := by
  simp [get_documents]

-- ===== Claims =====

/-- C10: on every filterable list endpoint (event-volunteers, donations,
tasks, attendance), an `event_id` query parameter equal to the empty string
is treated identically to no filter at all — the empty string is falsy in
`{"event_id": event_id} if event_id else {}` — and both return every record
of the collection (serialized), not only those whose `event_id` is `""`. -/
theorem C10_empty_string_filter_lists_all (ev don ta att : List Doc) :
    list_event_volunteers ev (some "") = list_event_volunteers ev none ∧
    list_donations don (some "") = list_donations don none ∧
    list_tasks ta (some "") = list_tasks ta none ∧
    list_attendance att (some "") = list_attendance att none ∧
    list_event_volunteers ev (some "") = ev.map serialize_doc ∧
    list_donations don (some "") = don.map serialize_doc ∧
    list_tasks ta (some "") = ta.map serialize_doc ∧
    list_attendance att (some "") = att.map serialize_doc := by
  refine ⟨rfl, rfl, rfl, rfl, ?_, ?_, ?_, ?_⟩ <;>
    simp [list_event_volunteers, list_donations, list_tasks, list_attendance,
      eventIdFilter, get_documents_empty_filter]

/-- C8: hashing is salt-randomized — two calls on the same plaintext (which
draw different salts) produce different digests — yet every digest produced
from a plaintext verifies against that plaintext. -/
theorem C8_hash_salted_yet_verifies (p : String) (s₁ s₂ : Nat) :
    (s₁ ≠ s₂ → get_password_hash p s₁ ≠ get_password_hash p s₂) ∧
    verify_password p (get_password_hash p s₁) = true := by
  constructor
  · intro hne hc
    simp only [get_password_hash, Value.vDigest.injEq] at hc
    exact hne hc.2
  · simp [verify_password, get_password_hash]

theorem C8_hash_salted_yet_verifies_witness :
    get_password_hash "pw" 1 ≠ get_password_hash "pw" 2 ∧
    verify_password "pw" (get_password_hash "pw" 1) = true :=
  ⟨(C8_hash_salted_yet_verifies "pw" 1 2).1 (by decide),
   (C8_hash_salted_yet_verifies "pw" 1 2).2⟩

/-- C2: `login` answers the 400 "Invalid credentials" exception exactly when
the email is not on file or the submitted password does not verify against
the stored digest; the two cases raise the literally identical
`HTTPException` (same kind, status and message), so the caller cannot tell
which factor failed. -/
theorem C2_login_invalid_credentials_iff (st : UserStore)
    (username password secret : String) (now : Int) :
    login (some st) username password secret now =
        Except.error ⟨400, "Invalid credentials"⟩ ↔
      (find_one st.docs "email" (Value.vStr username) = none ∨
       ∃ u, find_one st.docs "email" (Value.vStr username) = some u ∧
         verify_password password (pyGetD u "password" (Value.vStr "")) = false) := by
  cases h : find_one st.docs "email" (Value.vStr username) with
  | none => simp [login, h]
  | some u =>
    by_cases hv : verify_password password (pyGetD u "password" (Value.vStr ""))
    · by_cases ha : Value.truthy (pyGetD u "is_active" (Value.vBool true))
      · simp [login, h, hv, ha]
      · simp [login, h, hv, ha]
    · simp [login, h, hv]

/-- C9: a stored user record that lacks the `is_active` field entirely is
treated as active by `login` — `user.get("is_active", True)` defaults to
`True` — so correct credentials yield a token; among records whose
`is_active` is the boolean the schema declares, the 403 "User is inactive"
rejection fires exactly when the field is present and `False`. -/
theorem C9_missing_is_active_defaults_to_active (st : UserStore)
    (email pwd secret : String) (now : Int) (u : Doc)
    (hu : find_one st.docs "email" (Value.vStr email) = some u)
    (hv : verify_password pwd (pyGetD u "password" (Value.vStr "")) = true) :
    (Doc.get u "is_active" = none →
      ∃ t, login (some st) email pwd secret now = Except.ok t) ∧
    (Doc.get u "is_active" = some (Value.vBool true) →
      ∃ t, login (some st) email pwd secret now = Except.ok t) ∧
    (Doc.get u "is_active" = some (Value.vBool false) →
      login (some st) email pwd secret now =
        Except.error ⟨403, "User is inactive"⟩) := by
  simp only [pyGetD] at hv
  refine ⟨fun h => ?_, fun h => ?_, fun h => ?_⟩ <;>
    simp [login, hu, hv, pyGetD, h, Value.truthy]

/-- A sample stored user document lacking the `is_active` field. -/
def userNoActiveFlag : Doc :=
  [("_id", Value.vOid 0), ("email", Value.vStr "a@x.com"),
   ("password", Value.vDigest "pw" 3)]

theorem C9_missing_is_active_defaults_to_active_witness :
    ∃ t, login (some ⟨[userNoActiveFlag], 1⟩) "a@x.com" "pw" "k" 0 =
      Except.ok t :=
  (C9_missing_is_active_defaults_to_active ⟨[userNoActiveFlag], 1⟩
    "a@x.com" "pw" "k" 0 userNoActiveFlag (by decide) (by decide)).1 (by decide)

/-- C5: on every successful login the issued token is signed with the server
secret and encodes `sub` = the user's identifier in its canonical string
form, `role` = the user's stored role, and `exp` = the issue time plus
exactly 24 hours (86400 seconds, from `ACCESS_TOKEN_EXPIRE_MINUTES = 60 * 24`
minutes). -/
theorem C5_token_contents (st : UserStore) (email pwd secret : String)
    (now : Int) (u : Doc) (n : Nat) (r : String)
    (hu : find_one st.docs "email" (Value.vStr email) = some u)
    (hv : verify_password pwd (pyGetD u "password" (Value.vStr "")) = true)
    (ha : Value.truthy (pyGetD u "is_active" (Value.vBool true)) = true)
    (hid : Doc.get u "_id" = some (Value.vOid n))
    (hr : Doc.get u "role" = some (Value.vStr r)) :
    login (some st) email pwd secret now =
      Except.ok (Token.signed
        [("sub", Value.vStr (objectIdToString n)), ("role", Value.vStr r),
         ("exp", Value.vInt (now + 24 * 60 * 60))] secret) := by
  simp only [pyGetD] at hv ha
  simp [login, hu, hv, ha, create_access_token, pyGetD, hid, hr,
    valueToString, Doc.set, ACCESS_TOKEN_EXPIRE_MINUTES]

/-- A sample stored user document with every schema field present. -/
def sampleUser : Doc :=
  [("_id", Value.vOid 5), ("name", Value.vStr "A"),
   ("email", Value.vStr "a@x.com"), ("phone", Value.vNull),
   ("role", Value.vStr "admin"), ("password", Value.vDigest "pw" 3),
   ("is_active", Value.vBool true)]

/-- The user collection holding just `sampleUser`. -/
def sampleStore : UserStore := ⟨[sampleUser], 6⟩

theorem C5_token_contents_witness :
    login (some sampleStore) "a@x.com" "pw" "k" 100 =
      Except.ok (Token.signed
        [("sub", Value.vStr (objectIdToString 5)),
         ("role", Value.vStr "admin"),
         ("exp", Value.vInt (100 + 24 * 60 * 60))] "k") :=
  C5_token_contents sampleStore "a@x.com" "pw" "k" 100 sampleUser 5 "admin"
    (by decide) (by decide) (by decide) (by decide) (by decide)

/-- C4: every successful registration stores a user record whose `password`
field is the hash of the submitted plaintext — which is never equal to the
plaintext itself — and whose `is_active` field is `true`; exactly one record
is appended. -/
theorem C4_register_hashes_password (st : UserStore) (p : RegisterPayload)
    (salt : Nat) (res : String) (st' : UserStore)
    (h : register (some st) p salt = (Except.ok res, some st')) :
    ∃ d, st'.docs = st.docs ++ [d] ∧
      Doc.get d "password" = some (get_password_hash p.password salt) ∧
      get_password_hash p.password salt ≠ Value.vStr p.password ∧
      Doc.get d "is_active" = some (Value.vBool true) := by
  cases hf : find_one st.docs "email" (Value.vStr p.email) with
  | some u => simp [register, hf] at h
  | none =>
    simp only [register, hf, Prod.mk.injEq, Option.some.injEq] at h
    refine ⟨("_id", Value.vOid st.nextId) :: registerDoc p salt,
      ?_, ?_, ?_, ?_⟩
    · rw [← h.2]
    · rfl
    · simp [get_password_hash]
    · rfl

theorem C4_register_hashes_password_witness :
    ∃ d, (UserStore.mk [("_id", Value.vOid 0) ::
          registerDoc ⟨"A", "a@x.com", none, "volunteer", "pw"⟩ 7] 1).docs =
        ([] : List Doc) ++ [d] ∧
      Doc.get d "password" = some (get_password_hash "pw" 7) ∧
      get_password_hash "pw" 7 ≠ Value.vStr "pw" ∧
      Doc.get d "is_active" = some (Value.vBool true) :=
  C4_register_hashes_password ⟨[], 0⟩ ⟨"A", "a@x.com", none, "volunteer", "pw"⟩
    7 "0" ⟨[("_id", Value.vOid 0) ::
      registerDoc ⟨"A", "a@x.com", none, "volunteer", "pw"⟩ 7] , 1⟩ rfl

/-- C6: registering an email not yet on file succeeds and answers the freshly
assigned identifier (new: no stored record carries it, given that stored ids
are below the store's counter); registering the same email again fails with
the 400 "Email already registered" duplicate rejection and leaves the store
exactly as the first registration left it — the rejection happens before any
insert. -/
theorem C6_duplicate_email_rejected (st : UserStore) (p q : RegisterPayload)
    (s₁ s₂ : Nat)
    (hq : q.email = p.email)
    (hfresh : find_one st.docs "email" (Value.vStr p.email) = none)
    (hinv : ∀ d ∈ st.docs, ∀ n, Doc.get d "_id" = some (Value.vOid n) →
      n < st.nextId) :
    ∃ st' : UserStore,
      register (some st) p s₁ =
        (Except.ok (objectIdToString st.nextId), some st') ∧
      (∀ d ∈ st.docs, Doc.get d "_id" ≠ some (Value.vOid st.nextId)) ∧
      register (some st') q s₂ =
        (Except.error ⟨400, "Email already registered"⟩, some st') := by
  refine ⟨⟨st.docs ++ [("_id", Value.vOid st.nextId) :: registerDoc p s₁],
    st.nextId + 1⟩, ?_, ?_, ?_⟩
  · simp [register, hfresh]
  · intro d hd hc
    exact absurd (hinv d hd st.nextId hc) (lt_irrefl st.nextId)
  · have hget : Doc.get (("_id", Value.vOid st.nextId) :: registerDoc p s₁)
        "email" = some (Value.vStr p.email) := rfl
    have hsec : find_one (st.docs ++
          [("_id", Value.vOid st.nextId) :: registerDoc p s₁])
        "email" (Value.vStr q.email) =
        some (("_id", Value.vOid st.nextId) :: registerDoc p s₁) := by
      rw [hq, find_one_append_of_none _ _ _ _ hfresh]
      simp [find_one, List.find?, hget]
    simp [register, hsec]

theorem C6_duplicate_email_rejected_witness :
    ∃ st' : UserStore,
      register (some ⟨[], 0⟩) ⟨"A", "a@x.com", none, "volunteer", "pw"⟩ 1 =
        (Except.ok (objectIdToString 0), some st') ∧
      (∀ d ∈ ([] : List Doc), Doc.get d "_id" ≠ some (Value.vOid 0)) ∧
      register (some st') ⟨"B", "a@x.com", none, "admin", "pw2"⟩ 2 =
        (Except.error ⟨400, "Email already registered"⟩, some st') :=
  C6_duplicate_email_rejected ⟨[], 0⟩ ⟨"A", "a@x.com", none, "volunteer", "pw"⟩
    ⟨"B", "a@x.com", none, "admin", "pw2"⟩ 1 2 (by decide) (by decide)
    (by intro d hd; exact absurd hd (List.not_mem_nil d))

/-- C1 counterexample: a token that is well-signed under the server secret and
unexpired but whose subject claim `"x"` is not a well-formed ObjectId string
does not correspond to any stored user (the store is empty), yet
`get_current_user` does not fail with the 401 `credentials_exception`:
`ObjectId(user_id)` raises `InvalidId` outside the `except JWTError` handler
and the request fails with a server error instead. -/
theorem C1_invalid_subject_counterexample :
    get_current_user (some ⟨[], 0⟩)
        (Token.signed [("sub", Value.vStr "x"), ("exp", Value.vInt 2)] "k")
        "k" 1 =
      Except.error (PyError.invalidId "x") ∧
    PyError.invalidId "x" ≠ PyError.http credentials_exception :=
  ⟨by decide, by decide⟩

/-- C1 (amended): a malformed token, a signature that does not verify under
the server secret, a passed expiry, a missing/`None` subject claim, and a
subject that parses as a store identifier but matches no stored user all
fail with the identical 401 `credentials_exception`; only a well-signed,
unexpired token whose subject string is not a parseable identifier escapes
this 401, raising `InvalidId` instead. -/
theorem C1_resolve_failures_yield_401 (st : UserStore) (secret : String)
    (now : Int) :
    (∀ s, get_current_user (some st) (Token.malformed s) secret now =
      Except.error (PyError.http credentials_exception)) ∧
    (∀ claims key, key ≠ secret →
      get_current_user (some st) (Token.signed claims key) secret now =
        Except.error (PyError.http credentials_exception)) ∧
    (∀ claims e, Doc.get claims "exp" = some (Value.vInt e) → e ≤ now →
      get_current_user (some st) (Token.signed claims secret) secret now =
        Except.error (PyError.http credentials_exception)) ∧
    (∀ claims, jwtDecode (Token.signed claims secret) secret now = some claims →
      pyGetD claims "sub" Value.vNull = Value.vNull →
      get_current_user (some st) (Token.signed claims secret) secret now =
        Except.error (PyError.http credentials_exception)) ∧
    (∀ claims s n, jwtDecode (Token.signed claims secret) secret now = some claims →
      pyGetD claims "sub" Value.vNull = Value.vStr s →
      objectIdOfString s = some n →
      find_one st.docs "_id" (Value.vOid n) = none →
      get_current_user (some st) (Token.signed claims secret) secret now =
        Except.error (PyError.http credentials_exception)) := by
  refine ⟨fun s => rfl, fun claims key hk => ?_, fun claims e he hle => ?_,
    fun claims hdec hsub => ?_, fun claims s n hdec hsub hparse hfind => ?_⟩
  · simp [get_current_user, jwtDecode, hk]
  · simp [get_current_user, jwtDecode, he, hle]
  · simp [get_current_user, hdec, hsub]
  · simp [get_current_user, hdec, hsub, toObjectId, hparse, hfind]

theorem C1_resolve_failures_yield_401_witness :
    get_current_user (some ⟨[], 0⟩) (Token.signed [] "a") "b" 0 =
      Except.error (PyError.http credentials_exception) :=
  (C1_resolve_failures_yield_401 ⟨[], 0⟩ "b" 0).2.1 [] "a" (by decide)

/-- C3 counterexample: `get_current_user` itself hands the resolved record to
its consumer with the password digest still present — the record it returns
for a valid token of `sampleUser` contains the `password` field; the digest
is only popped later, inside the `/auth/me` handler. -/
theorem C3_resolve_keeps_password_counterexample :
    get_current_user (some sampleStore)
        (Token.signed [("sub", Value.vStr "5"), ("exp", Value.vInt 200)] "k")
        "k" 100 =
      Except.ok
        [("name", Value.vStr "A"), ("email", Value.vStr "a@x.com"),
         ("phone", Value.vNull), ("role", Value.vStr "admin"),
         ("password", Value.vDigest "pw" 3), ("is_active", Value.vBool true),
         ("id", Value.vStr "5")] ∧
    Doc.get
        [("name", Value.vStr "A"), ("email", Value.vStr "a@x.com"),
         ("phone", Value.vNull), ("role", Value.vStr "admin"),
         ("password", Value.vDigest "pw" 3), ("is_active", Value.vBool true),
         ("id", Value.vStr "5")] "password" ≠ none :=
  ⟨by decide, by decide⟩

/-- C3 (amended): the record `get_current_user` returns still carries the
password digest; it is the `/auth/me` endpoint (`read_users_me`) that pops
the `password` field, so every record that endpoint delivers to the HTTP
caller contains no password field. -/
theorem C3_me_endpoint_strips_password (db : Option UserStore) (token : Token)
    (secret : String) (now : Int) (d : Doc)
    (h : read_users_me db token secret now = Except.ok d) :
    Doc.get d "password" = none := by
  cases hg : get_current_user db token secret now with
  | error e => simp [read_users_me, hg] at h
  | ok u =>
    simp only [read_users_me, hg, Except.ok.injEq] at h
    rw [← h]
    exact Doc.get_erase_self u "password"

theorem C3_me_endpoint_strips_password_witness :
    Doc.get
        [("name", Value.vStr "A"), ("email", Value.vStr "a@x.com"),
         ("phone", Value.vNull), ("role", Value.vStr "admin"),
         ("is_active", Value.vBool true), ("id", Value.vStr "5")]
        "password" = none :=
  C3_me_endpoint_strips_password (some sampleStore)
    (Token.signed [("sub", Value.vStr "5"), ("exp", Value.vInt 200)] "k")
    "k" 100
    [("name", Value.vStr "A"), ("email", Value.vStr "a@x.com"),
     ("phone", Value.vNull), ("role", Value.vStr "admin"),
     ("is_active", Value.vBool true), ("id", Value.vStr "5")] (by decide)

/-- C7 counterexample: a record whose store-native `_id` field holds a string
rather than an ObjectId is returned by the list endpoint with the `_id`
field retained and no `id` field added — `serialize_doc` only rewrites the
identifier when `isinstance(_id, ObjectId)`. -/
theorem C7_non_objectid_retained_counterexample :
    list_events [[("_id", Value.vStr "abc")]] = [[("_id", Value.vStr "abc")]] ∧
    Doc.get [("_id", Value.vStr "abc")] "_id" = some (Value.vStr "abc") :=
  ⟨rfl, rfl⟩

/-- C7 (amended): every record returned by a list endpoint whose stored `_id`
is an ObjectId — the store-native identifier type, the only one this system
ever inserts — has the `_id` field removed and replaced by the field `id`
holding the identifier's string form; a record whose `_id` is of any other
type is returned unchanged, `_id` included. -/
theorem C7_serialize_normalizes_objectid (coll : List Doc) (d : Doc)
    (hd : d ∈ coll) :
    (∀ n, Doc.get d "_id" = some (Value.vOid n) →
      serialize_doc d ∈ list_events coll ∧
      Doc.get (serialize_doc d) "_id" = none ∧
      Doc.get (serialize_doc d) "id" =
        some (Value.vStr (objectIdToString n))) ∧
    ((∀ n, Doc.get d "_id" ≠ some (Value.vOid n)) → serialize_doc d = d) := by
  constructor
  · intro n hid
    have hne : d ≠ [] := by
      intro hnil
      rw [hnil] at hid
      simp [Doc.get] at hid
    have hser : serialize_doc d =
        Doc.erase (Doc.set d "id" (Value.vStr (objectIdToString n))) "_id" := by
      simp [serialize_doc, hne, hid]
    refine ⟨?_, ?_, ?_⟩
    · rw [list_events, get_documents_empty_filter]
      exact List.mem_map_of_mem serialize_doc hd
    · rw [hser]
      exact Doc.get_erase_self _ "_id"
    · rw [hser, Doc.get_erase_ne _ _ _ (by decide)]
      exact Doc.get_set_self d "id" _
  · intro hno
    by_cases hnil : d = []
    · simp [serialize_doc, hnil]
    · cases hid : Doc.get d "_id" with
      | none => simp [serialize_doc, hnil, hid]
      | some v =>
        cases v with
        | vOid n => exact absurd hid (hno n)
        | vStr s => simp [serialize_doc, hnil, hid]
        | vInt i => simp [serialize_doc, hnil, hid]
        | vBool b => simp [serialize_doc, hnil, hid]
        | vNull => simp [serialize_doc, hnil, hid]
        | vDigest p sa => simp [serialize_doc, hnil, hid]

theorem C7_serialize_normalizes_objectid_witness :
    serialize_doc [("_id", Value.vOid 3)] ∈
      list_events [[("_id", Value.vOid 3)]] ∧
    Doc.get (serialize_doc [("_id", Value.vOid 3)]) "_id" = none ∧
    Doc.get (serialize_doc [("_id", Value.vOid 3)]) "id" =
      some (Value.vStr (objectIdToString 3)) :=
  (C7_serialize_normalizes_objectid [[("_id", Value.vOid 3)]]
    [("_id", Value.vOid 3)] (by simp)).1 3 rfl
